import Mathlib

/-!
# Verification of the pgdata download client

A shallow embedding of `src/pgdata/client.py` (class `PgDataClient`):
session construction, lazy token resolution, the paginated collection
loop `_collect_results`, and the resource accessors the claims mention.

Python truthiness on the optional strings the code tests (`token`,
`username`, `password`, `system_id`, `search`, `res['next']`) is modelled
explicitly by `truthy`: `None` and the empty string are falsy, every other
string is truthy.  JSON `null` is modelled by `Option.none`.  The
pagination loop, a `while True` in the source, is embedded with explicit
fuel: `none` means the fuel ran out before the loop returned, so genuine
non-termination shows up as `none` at every fuel.
-/

namespace PgData

/-- Python truthiness of an optional string: `None` and `''` are falsy. -/
def truthy : Option String → Bool
  | none => false
  | some s => s != ""

/-- A query-parameter mapping, as the list of key/value pairs handed to
`requests.get(uri, params=...)`. -/
abbrev Params := List (String × String)

/-! ## Session construction (`__init__`) -/

/-- The state `__init__` stores on `self`: the normalized `host:port`
base, and the three credential fields exactly as passed. -/
structure Client where
  host : String
  token : Option String
  username : Option String
  password : Option String
deriving DecidableEq, Repr

/-- How construction can fail: the credential `assert` on line 29
(an `AssertionError`, the spec's Configuration Error), or the
`host[-1]` lookup on an empty string in the slash-stripping loop on
line 31 (an `IndexError`). -/
inductive InitError where
  | configError
  | indexError
deriving DecidableEq, Repr

/-- The loop `while host[-1] == '/': host = host[:-1]`, acting on the
reversed character list (so the head is `host[-1]`).  Python raises
`IndexError` when the string being indexed is empty, which is the
`none` case. -/
def stripSlashesRev : List Char → Option (List Char)
  | [] => none
  | c :: cs => if c = '/' then stripSlashesRev cs else some (c :: cs)

/-- Strip every trailing `'/'` from `host`; `none` models the
`IndexError` the loop raises once it has consumed the whole string. -/
def normalizeHost (host : String) : Option String :=
  (stripSlashesRev host.data.reverse).map fun l => String.mk l.reverse

/-- `PgDataClient.__init__`: first `assert (token) or (username and
password)` (Python truthiness), then the slash-stripping loop, then
store `f'{host}:{port}'` and the credentials unchanged. -/
def init (host : String) (port : Nat)
    (token username password : Option String) : Except InitError Client :=
  if truthy token || (truthy username && truthy password) then
    match normalizeHost host with
    | none => Except.error InitError.indexError
    | some h => Except.ok ⟨h ++ ":" ++ toString port, token, username, password⟩
  else
    Except.error InitError.configError

/-! ## Token resolution (`_get_token` and `__enter__`) -/

/-- What the login POST to `<host>/api-token-auth/` came back with:
the HTTP status, whether the body parsed as JSON, and the body's
`token` field when present.  `_get_token` receives this; note the code
never calls `raise_for_status` on it. -/
structure AuthResponse where
  status : Nat
  validJson : Bool
  tokenField : Option String
deriving DecidableEq, Repr

/-- How `_get_token` can raise: the POST itself errors
(`requests` exception), `res.json()` fails to decode, or the decoded
body has no `'token'` key (`KeyError`). -/
inductive AuthError where
  | netError
  | decodeError
  | missingToken
deriving DecidableEq, Repr

/-- `_get_token`: POST the credentials (a `none` response models a
network error), decode the body with `res.json()`, and return
`res['token']`.  The HTTP status of the response is never inspected. -/
def getToken (resp : Option AuthResponse) : Except AuthError String :=
  match resp with
  | none => Except.error AuthError.netError
  | some r =>
    if r.validJson then
      match r.tokenField with
      | some t => Except.ok t
      | none => Except.error AuthError.missingToken
    else
      Except.error AuthError.decodeError

/-- `__enter__`: `if not self.token: self.token = self._get_token()`.
Returns the (possibly updated) session together with the outcome; when
`_get_token` raises, the assignment never happens and the session is
returned unchanged. -/
def enter (resp : Option AuthResponse) (c : Client) :
    Client × Except AuthError Unit :=
  if truthy c.token then (c, Except.ok ())
  else
    match getToken resp with
    | Except.ok t => ({ c with token := some t }, Except.ok ())
    | Except.error e => (c, Except.error e)

/-! ## The pagination loop (`_get` and `_collect_results`) -/

/-- What one `requests.get` inside the loop produced, after
`raise_for_status` and `res.json()`: either a well-formed page
(`res['results']`, `res['next']`, with JSON `null` as `none`), or a
non-success HTTP status, which `raise_for_status` turns into an
exception carrying the status and body. -/
inductive PageResult (α : Type) where
  | ok (results : List α) (next : Option String)
  | httpError (status : Nat) (body : String)
deriving DecidableEq, Repr

/-- The error `raise_for_status` raises (the spec's Request Error). -/
structure RequestError where
  status : Nat
  body : String
deriving DecidableEq, Repr

/-- A finished run of `_collect_results`: the requests it issued, in
order, each with the `uri` and `params` it was sent with, and either
the accumulated `results` or the `RequestError` that aborted it. -/
structure CollectOutcome (α : Type) where
  requests : List (String × Params)
  value : Except RequestError (List α)
deriving Repr

/-- The body of `_collect_results`' `while True` loop, with fuel.  The
server is the sequence of responses the successive GETs receive.  On a
page with truthy `next` the loop sets `uri = res['next']` and goes
around — `params` is handed on *unchanged*, exactly as in the source,
which never reassigns it. -/
def collectAux {α : Type} : Nat → (Nat → PageResult α) → String → Params →
    List α → List (String × Params) → Option (CollectOutcome α)
  | 0, _, _, _, _, _ => none
  | fuel + 1, server, uri, params, acc, reqs =>
    match server 0 with
    | PageResult.httpError st body =>
        some ⟨reqs ++ [(uri, params)], Except.error ⟨st, body⟩⟩
    | PageResult.ok results next =>
        if truthy next then
          collectAux fuel (fun i => server (i + 1)) (next.getD "") params
            (acc ++ results) (reqs ++ [(uri, params)])
        else
          some ⟨reqs ++ [(uri, params)], Except.ok (acc ++ results)⟩

/-- `_collect_results(uri, params)`: run the loop from an empty
accumulator, recording every request issued. -/
def collect_results {α : Type} (fuel : Nat) (server : Nat → PageResult α)
    (uri : String) (params : Params) : Option (CollectOutcome α) :=
  collectAux fuel server uri params [] []

/-- A server whose `k`-th response is the `k`-th entry of a fixed list
of pages (each `results × next`); responses past the end never occur in
the runs the theorems describe. -/
def serverOfPages {α : Type} (pages : List (List α × Option String)) :
    Nat → PageResult α :=
  fun k =>
    match pages[k]? with
    | some p => PageResult.ok p.1 p.2
    | none => PageResult.httpError 404 "past the last page"

/-! ## HTTP-call traces (for the token-caching claim) -/

/-- One HTTP call made by the client: the single login `requests.post`
of `_get_token`, or a `requests.get` of the pagination loop. -/
inductive HttpCall where
  | post (uri : String)
  | get (uri : String) (params : Params)
deriving DecidableEq, Repr

/-- Number of POSTs in a trace. -/
def countPosts : List HttpCall → Nat
  | [] => 0
  | HttpCall.post _ :: rest => countPosts rest + 1
  | HttpCall.get _ _ :: rest => countPosts rest

/-- The HTTP calls `__enter__` makes: nothing when `self.token` is
truthy, otherwise the one login POST `_get_token` issues to
`f'{self.host}/api-token-auth/'` (issued whether or not it succeeds). -/
def enterCalls (c : Client) : List HttpCall :=
  if truthy c.token then [] else [HttpCall.post (c.host ++ "/api-token-auth/")]

/-- The HTTP calls of one accessor call: the GETs its
`_collect_results` run issued, in order.  Accessors make no other
calls. -/
def getTrace {α : Type} (o : CollectOutcome α) : List HttpCall :=
  o.requests.map fun r => HttpCall.get r.1 r.2

/-- The full trace of a scoped session: entry, then each accessor
call's GETs in order. -/
def sessionCalls {α : Type} (c : Client) (outcomes : List (CollectOutcome α)) :
    List HttpCall :=
  enterCalls c ++ (outcomes.map getTrace).flatten

/-! ## Resource accessors -/

/-- How an accessor can fail before issuing any request: the `assert`
in `get_systems` (the spec's Configuration Error). -/
inductive AccessorError where
  | configError
deriving DecidableEq, Repr

/-- The argument handling of `get_systems`: `assert not (system_id and
search)` (Python truthiness), then `if system_id: ... elif search: ...`
to build the parameter dict. -/
def get_systems_params (system_id search : Option String) :
    Except AccessorError Params :=
  if truthy system_id && truthy search then
    Except.error AccessorError.configError
  else
    Except.ok
      (if truthy system_id then [("system_id", system_id.getD "")]
       else if truthy search then [("search", search.getD "")]
       else [])

/-- `get_systems`: validate the arguments, build the params, and hand
`f'{self.host}/api/systems'` with them to `_collect_results`.  When the
`assert` fails no `collect_results` run happens at all. -/
def get_systems {α : Type} (c : Client) (server : Nat → PageResult α)
    (fuel : Nat) (system_id search : Option String) :
    Except AccessorError (Option (CollectOutcome α)) :=
  match get_systems_params system_id search with
  | Except.error e => Except.error e
  | Except.ok ps =>
      Except.ok (collect_results fuel server (c.host ++ "/api/systems") ps)

/-! ## Dates (`datetime.date.isoformat`) -/

/-- A calendar date as `datetime.date` holds it. -/
structure PyDate where
  year : Nat
  month : Nat
  day : Nat
deriving DecidableEq, Repr

/-- Zero-pad to two digits, as `isoformat` renders months and days. -/
def pad2 (n : Nat) : String :=
  if n < 10 then "0" ++ toString n else toString n

/-- Zero-pad to four digits, as `isoformat` renders years. -/
def pad4 (n : Nat) : String :=
  if n < 10 then "000" ++ toString n
  else if n < 100 then "00" ++ toString n
  else if n < 1000 then "0" ++ toString n
  else toString n

/-- `datetime.date.isoformat`: `YYYY-MM-DD`. -/
def PyDate.isoformat (d : PyDate) : String :=
  pad4 d.year ++ "-" ++ pad2 d.month ++ "-" ++ pad2 d.day

/-- The parameter dict `get_gross_daily_kwh` builds: `system_id`, and
the two dates serialized with `.isoformat()` under `ts__gte` /
`ts__lte`. -/
def get_gross_daily_kwh_params (system_id : String)
    (start_date end_date : PyDate) : Params :=
  [("system_id", system_id),
   ("ts__gte", start_date.isoformat),
   ("ts__lte", end_date.isoformat)]

/-- `get_gross_daily_kwh`: build the params and collect from
`f'{self.host}/api/gross-kwh-daily'`. -/
def get_gross_daily_kwh {α : Type} (c : Client) (server : Nat → PageResult α)
    (fuel : Nat) (system_id : String) (start_date end_date : PyDate) :
    Option (CollectOutcome α) :=
  collect_results fuel server (c.host ++ "/api/gross-kwh-daily")
    (get_gross_daily_kwh_params system_id start_date end_date)

/-! ## Concrete fixtures used by the closed theorems below -/

/-- A session constructed with username/password and no token. -/
def c0 : Client := ⟨"h:1", none, some "u", some "p"⟩

/-- A session constructed with a pre-supplied token. -/
def cTok : Client := ⟨"h:1", some "t", none, none⟩

/-- A login response with a non-success status whose body nevertheless
carries a `token` field. -/
def r500 : AuthResponse := ⟨500, true, some "tok"⟩

/-- A two-page server: the first page links to `"u2"`, the second is
the last. -/
def exServer : Nat → PageResult Nat :=
  fun k =>
    if k = 0 then PageResult.ok [1] (some "u2") else PageResult.ok [2] none

/-- A non-empty initial parameter mapping. -/
def exParams : Params := [("a", "b")]

/-- The outcome of running `collect_results` against `exServer` from
`"u1"` with `exParams`. -/
def exOutcome : CollectOutcome Nat :=
  ⟨[("u1", exParams), ("u2", exParams)], Except.ok [1, 2]⟩

/-- A server whose first page is fine and whose second GET comes back
with status 500. -/
def errServer : Nat → PageResult Nat :=
  fun k =>
    if k = 0 then PageResult.ok [7] (some "n")
    else PageResult.httpError 500 "boom"

/-- The first two of three pages: both link onwards. -/
def pages3 : List (List Nat × Option String) :=
  [([1, 2], some "p2"), ([3], some "p3")]

/-- The third page: `next` is null. -/
def lastPage3 : List Nat × Option String := ([4, 5], none)

/-- A lone page with `next: null`. -/
def onlyPage : List Nat × Option String := ([9], none)

/-- The empty page prefix (for the single-page pagination run). -/
def noPages : List (List Nat × Option String) := []

end PgData

namespace PgData

/-! ## C2 — credential check at construction -/

/-- C2 counterexample: constructing with BOTH a token and a
username/password pair is accepted — `assert (token) or (username and
password)` passes, no Configuration Error is raised, contradicting the
claimed "exactly one" exclusivity. -/
theorem C2_both_credentials_accepted :
    init "h" 443 (some "t") (some "u") (some "p") =
      Except.ok ⟨"h:443", some "t", some "u", some "p"⟩ := rfl

/-- C2 (amended): construction fails with a Configuration Error iff
NEITHER a truthy token NOR a truthy username together with a truthy
password is supplied; supplying both credentials at once is accepted. -/
theorem C2_config_error_iff_no_credentials (host : String) (port : Nat)
    (token username password : Option String) :
    (init host port token username password =
        Except.error InitError.configError) ↔
      (truthy token || (truthy username && truthy password)) = false := by
  unfold init
  cases h : truthy token || (truthy username && truthy password)
  · simp
  · cases hn : normalizeHost host <;> simp [hn]

/-! ## C3 — login failure leaves the token unset -/

/-- C3 counterexample: `_get_token` never inspects the HTTP status of
the login response (`raise_for_status` is not called), so a status-500
response whose JSON body carries a `token` field succeeds and sets the
token, contradicting "non-success status ⇒ Authentication Error". -/
theorem C3_status_ignored_counterexample :
    r500.status = 500 ∧
    enter (some r500) c0 =
      (⟨"h:1", some "tok", some "u", some "p"⟩, Except.ok ()) :=
  ⟨rfl, rfl⟩

/-- C3 (amended): for a session without a truthy token, if the login
POST errors on the network, the body fails to decode as JSON, or the
decoded body lacks a `token` field, then entering the session fails and
the session is returned unchanged — the token stays unset.  (The HTTP
status alone causes no failure: it is never inspected.) -/
theorem C3_auth_failure_token_unset (c : Client) (resp : Option AuthResponse)
    (hc : truthy c.token = false)
    (hfail : resp = none ∨
      ∃ r, resp = some r ∧ (r.validJson = false ∨ r.tokenField = none)) :
    (enter resp c).1 = c ∧ ∃ e, (enter resp c).2 = Except.error e := by
  rcases hfail with h | ⟨r, hr, hbad⟩
  · subst h
    simp [enter, hc, getToken]
  · subst hr
    rcases hbad with hv | ht
    · simp [enter, hc, getToken, hv]
    · cases hvj : r.validJson
      · simp [enter, hc, getToken, hvj]
      · simp [enter, hc, getToken, hvj, ht]

/-- C3 witness: a network error on the login POST of the
username/password session `c0` leaves it unchanged. -/
theorem C3_auth_failure_token_unset_witness :
    (enter none c0).1 = c0 ∧ ∃ e, (enter none c0).2 = Except.error e :=
  C3_auth_failure_token_unset c0 none rfl (Or.inl rfl)

/-! ## C7 — `get_systems` filter mutual exclusion -/

/-- C7: supplying both `system_id` and `search` (truthy) makes
`get_systems` fail with a Configuration Error before any
`collect_results` run; with at most one supplied the params are exactly
the supplied filter (empty when neither), and the collection proceeds
with exactly those params. -/
theorem C7_systems_filter_mutex {α : Type} (c : Client)
    (server : Nat → PageResult α) (fuel : Nat)
    (system_id search : Option String) :
    ((truthy system_id && truthy search) = true →
      get_systems c server fuel system_id search =
        Except.error AccessorError.configError) ∧
    (∀ s, system_id = some s → truthy system_id = true →
      truthy search = false →
      get_systems_params system_id search = Except.ok [("system_id", s)]) ∧
    (∀ s, search = some s → truthy search = true →
      truthy system_id = false →
      get_systems_params system_id search = Except.ok [("search", s)]) ∧
    (truthy system_id = false → truthy search = false →
      get_systems_params system_id search = Except.ok []) ∧
    (∀ ps, get_systems_params system_id search = Except.ok ps →
      get_systems c server fuel system_id search =
        Except.ok (collect_results fuel server
          (c.host ++ "/api/systems") ps)) := by
  refine ⟨?_, ?_, ?_, ?_, ?_⟩
  · intro h
    simp [get_systems, get_systems_params, h]
  · intro s hs hsid hsrch
    subst hs
    simp [get_systems_params, hsid, hsrch]
  · intro s hs hsrch hsid
    subst hs
    simp [get_systems_params, hsid, hsrch]
  · intro h1 h2
    simp [get_systems_params, h1, h2]
  · intro ps hps
    simp [get_systems, hps]

/-- C7 witness: both filters supplied fails; a single filter yields
exactly that filter; no filter yields the empty mapping. -/
theorem C7_systems_filter_mutex_witness :
    get_systems c0 exServer 1 (some "a") (some "b") =
      Except.error AccessorError.configError ∧
    get_systems_params (some "sys") none = Except.ok [("system_id", "sys")] ∧
    get_systems_params none none = Except.ok [] :=
  ⟨(C7_systems_filter_mutex c0 exServer 1 (some "a") (some "b")).1 (by decide),
   (C7_systems_filter_mutex c0 exServer 1 (some "sys") none).2.1 "sys" rfl
     (by decide) rfl,
   (C7_systems_filter_mutex c0 exServer 1 none none).2.2.2.1 rfl rfl⟩

/-! ## C9 — date-range serialization -/

/-- C9: the daily-gross-kWh accessor's parameter mapping has exactly
the keys `system_id`, `ts__gte`, `ts__lte`, with the two dates
serialized by `isoformat`; in particular 2023-01-01 / 2023-01-31 yield
`ts__gte=2023-01-01`, `ts__lte=2023-01-31` exactly. -/
theorem C9_date_range_serialization :
    (∀ (sid : String) (s e : PyDate),
      (get_gross_daily_kwh_params sid s e).map Prod.fst =
        ["system_id", "ts__gte", "ts__lte"] ∧
      get_gross_daily_kwh_params sid s e =
        [("system_id", sid), ("ts__gte", s.isoformat),
         ("ts__lte", e.isoformat)]) ∧
    get_gross_daily_kwh_params "PV1" ⟨2023, 1, 1⟩ ⟨2023, 1, 31⟩ =
      [("system_id", "PV1"), ("ts__gte", "2023-01-01"),
       ("ts__lte", "2023-01-31")] :=
  ⟨fun _sid _s _e => ⟨rfl, rfl⟩, rfl⟩

/-! ## C1 — the original params are re-sent after a `next` link -/

/-- In any run of the loop, every request carries the same `params`
the run started with: the source never reassigns `params`, it only
replaces `uri` with `res['next']`. -/
theorem collectAux_params_const {α : Type} :
    ∀ (fuel : Nat) (server : Nat → PageResult α) (uri : String)
      (params : Params) (acc : List α) (reqs : List (String × Params))
      (o : CollectOutcome α),
      collectAux fuel server uri params acc reqs = some o →
      (∀ q ∈ reqs, q.2 = params) → ∀ q ∈ o.requests, q.2 = params := by
  intro fuel
  induction fuel with
  | zero => intro server uri params acc reqs o h; simp [collectAux] at h
  | succ n ih =>
    intro server uri params acc reqs o h hreqs
    rw [collectAux] at h
    cases hs : server 0 with
    | httpError st body =>
      rw [hs] at h
      simp only [Option.some.injEq] at h
      subst h
      intro q hq
      rcases List.mem_append.mp hq with h1 | h1
      · exact hreqs q h1
      · simp only [List.mem_singleton] at h1
        subst h1
        rfl
    | ok results next =>
      rw [hs] at h
      by_cases ht : truthy next = true
      · simp only [ht, if_true] at h
        refine ih _ _ _ _ _ _ h ?_
        intro q hq
        rcases List.mem_append.mp hq with h1 | h1
        · exact hreqs q h1
        · simp only [List.mem_singleton] at h1
          subst h1
          rfl
      · simp only [Bool.not_eq_true] at ht
        simp only [ht, Bool.false_eq_true, if_false, Option.some.injEq] at h
        subst h
        intro q hq
        rcases List.mem_append.mp hq with h1 | h1
        · exact hreqs q h1
        · simp only [List.mem_singleton] at h1
          subst h1
          rfl

/-- C1 counterexample: a two-page run with non-empty initial params.
After following the `next` link `"u2"`, the second request still
carries `[("a", "b")]`, not the claimed cleared mapping. -/
theorem C1_params_cleared_counterexample :
    collect_results 2 exServer "u1" exParams = some exOutcome ∧
    exOutcome.requests[1]? = some ("u2", exParams) ∧ exParams ≠ [] :=
  ⟨rfl, rfl, by decide⟩

/-- C1 (amended): once a `next` link is followed the original params
ARE re-sent: in every finished run of `_collect_results`, every issued
request — the first and all the ones against `next` URIs alike —
carries the original query-parameter mapping unchanged. -/
theorem C1_params_resent_unchanged {α : Type} (fuel : Nat)
    (server : Nat → PageResult α) (uri : String) (params : Params)
    (o : CollectOutcome α)
    (h : collect_results fuel server uri params = some o) :
    ∀ q ∈ o.requests, q.2 = params :=
  collectAux_params_const fuel server uri params [] [] o h (by simp)

/-- C1 witness: in the concrete two-page run, the request issued
against the `next` URI `"u2"` carries the original params. -/
theorem C1_params_resent_unchanged_witness :
    (("u2", exParams) : String × Params).2 = exParams :=
  C1_params_resent_unchanged 2 exServer "u1" exParams exOutcome rfl
    ("u2", exParams) (by decide)

/-! ## C4 — aggregation across pages -/

/-- Dropping the already-consumed head page: the shifted server of
`p :: l` is the server of `l`. -/
theorem serverOfPages_shift {α : Type} (p : List α × Option String)
    (l : List (List α × Option String)) :
    (fun i => serverOfPages (p :: l) (i + 1)) = serverOfPages l := by
  funext i
  simp [serverOfPages]

/-- Running the loop over a list of pages whose members before the
last all have a truthy `next` and whose last does not: one request per
page, and the accumulator grows by the concatenation of the pages'
`results`. -/
theorem collectAux_pages_ok {α : Type} :
    ∀ (pre : List (List α × Option String))
      (lastPage : List α × Option String) (fuel : Nat) (uri : String)
      (params : Params) (acc : List α) (reqs : List (String × Params)),
      (∀ p ∈ pre, truthy p.2 = true) → truthy lastPage.2 = false →
      pre.length + 1 ≤ fuel →
      ∃ o : CollectOutcome α,
        collectAux fuel (serverOfPages (pre ++ [lastPage])) uri params acc
            reqs = some o ∧
        o.requests.length = reqs.length + (pre.length + 1) ∧
        o.value =
          Except.ok (acc ++ ((pre ++ [lastPage]).map Prod.fst).flatten) := by
  intro pre
  induction pre with
  | nil =>
    intro lastPage fuel uri params acc reqs _ hlast hfuel
    obtain ⟨f, rfl⟩ : ∃ f, fuel = f + 1 :=
      ⟨fuel - 1, by omega⟩
    rw [collectAux]
    have hs : serverOfPages ([] ++ [lastPage]) 0 =
        PageResult.ok lastPage.1 lastPage.2 := by
      simp [serverOfPages]
    rw [hs]
    simp [hlast]
  | cons p pre' ih =>
    intro lastPage fuel uri params acc reqs hpre hlast hfuel
    obtain ⟨f, rfl⟩ : ∃ f, fuel = f + 1 :=
      ⟨fuel - 1, by omega⟩
    rw [collectAux]
    have hs : serverOfPages ((p :: pre') ++ [lastPage]) 0 =
        PageResult.ok p.1 p.2 := by
      simp [serverOfPages]
    rw [hs]
    have hp : truthy p.2 = true := hpre p (List.mem_cons_self p pre')
    simp only [hp, if_true]
    rw [show ((p :: pre') ++ [lastPage]) = p :: (pre' ++ [lastPage]) from rfl,
      serverOfPages_shift]
    have hfuel' : pre'.length + 1 ≤ f := by
      simp at hfuel
      omega
    obtain ⟨o, ho, hlen, hval⟩ :=
      ih lastPage f (p.2.getD "") params (acc ++ p.1)
        (reqs ++ [(uri, params)])
        (fun q hq => hpre q (List.mem_cons_of_mem p hq)) hlast hfuel'
    refine ⟨o, ho, ?_, ?_⟩
    · simp at hlen
      simp [hlen]
      omega
    · rw [hval]
      simp

/-- C4: with pages 1..n-1 carrying a truthy `next` and page n a
null/empty one, `_collect_results` issues exactly n requests and
returns the in-order concatenation of the n pages' `results`. -/
theorem C4_pagination_aggregation {α : Type}
    (pre : List (List α × Option String))
    (lastPage : List α × Option String) (fuel : Nat) (uri : String)
    (params : Params) (hpre : ∀ p ∈ pre, truthy p.2 = true)
    (hlast : truthy lastPage.2 = false) (hfuel : pre.length + 1 ≤ fuel) :
    ∃ o : CollectOutcome α,
      collect_results fuel (serverOfPages (pre ++ [lastPage])) uri params =
        some o ∧
      o.requests.length = pre.length + 1 ∧
      o.value =
        Except.ok (((pre ++ [lastPage]).map Prod.fst).flatten) := by
  obtain ⟨o, ho, hlen, hval⟩ :=
    collectAux_pages_ok pre lastPage fuel uri params [] [] hpre hlast hfuel
  refine ⟨o, ho, by simpa using hlen, by simpa using hval⟩

/-- C4 witness: a three-page server (`next` truthy on pages 1–2, null
on page 3) yields exactly 3 requests and the concatenation
`[1, 2, 3, 4, 5]`; a single `next: null` page yields exactly 1 request
and that page's `results`. -/
theorem C4_pagination_aggregation_witness :
    (∃ o : CollectOutcome Nat,
      collect_results 3 (serverOfPages (pages3 ++ [lastPage3])) "u1" [] =
        some o ∧
      o.requests.length = pages3.length + 1 ∧
      o.value =
        Except.ok (((pages3 ++ [lastPage3]).map Prod.fst).flatten)) ∧
    (∃ o : CollectOutcome Nat,
      collect_results 1 (serverOfPages (noPages ++ [onlyPage])) "u1" [] =
        some o ∧
      o.requests.length = noPages.length + 1 ∧
      o.value =
        Except.ok (((noPages ++ [onlyPage]).map Prod.fst).flatten)) :=
  ⟨C4_pagination_aggregation pages3 lastPage3 3 "u1" [] (by decide) rfl
      (by decide),
   C4_pagination_aggregation noPages onlyPage 1 "u1" [] (by decide) rfl
      (by decide)⟩

/-! ## One-step equations for the loop body -/

/-- One iteration on a page with a truthy `next`: follow the link,
keep the params, extend accumulator and request trace. -/
theorem collectAux_step_ok_true {α : Type} (fuel : Nat)
    (server : Nat → PageResult α) (uri : String) (params : Params)
    (acc : List α) (reqs : List (String × Params)) (results : List α)
    (next : Option String) (hs : server 0 = PageResult.ok results next)
    (ht : truthy next = true) :
    collectAux (fuel + 1) server uri params acc reqs =
      collectAux fuel (fun i => server (i + 1)) (next.getD "") params
        (acc ++ results) (reqs ++ [(uri, params)]) := by
  rw [collectAux, hs]
  simp [ht]

/-- One iteration on a page with a falsy `next`: return. -/
theorem collectAux_step_ok_false {α : Type} (fuel : Nat)
    (server : Nat → PageResult α) (uri : String) (params : Params)
    (acc : List α) (reqs : List (String × Params)) (results : List α)
    (next : Option String) (hs : server 0 = PageResult.ok results next)
    (ht : truthy next = false) :
    collectAux (fuel + 1) server uri params acc reqs =
      some ⟨reqs ++ [(uri, params)], Except.ok (acc ++ results)⟩ := by
  rw [collectAux, hs]
  simp [ht]

/-- One iteration on a failing GET: raise the Request Error. -/
theorem collectAux_step_err {α : Type} (fuel : Nat)
    (server : Nat → PageResult α) (uri : String) (params : Params)
    (acc : List α) (reqs : List (String × Params)) (st : Nat)
    (body : String) (hs : server 0 = PageResult.httpError st body) :
    collectAux (fuel + 1) server uri params acc reqs =
      some ⟨reqs ++ [(uri, params)], Except.error ⟨st, body⟩⟩ := by
  rw [collectAux, hs]

/-! ## C5 — the loop terminates iff the server signals exhaustion -/

/-- If every response is a well-formed page and the `k`-th page's
`next` is falsy, the loop returns within `k + 1` iterations. -/
theorem collectAux_stops {α : Type} :
    ∀ (k : Nat) (server : Nat → PageResult α) (rs : Nat → List α)
      (nx : Nat → Option String),
      (∀ i, server i = PageResult.ok (rs i) (nx i)) →
      truthy (nx k) = false →
      ∀ uri params acc reqs,
        ∃ o : CollectOutcome α,
          collectAux (k + 1) server uri params acc reqs = some o ∧
          ∃ l, o.value = Except.ok l := by
  intro k
  induction k with
  | zero =>
    intro server rs nx hok hnx uri params acc reqs
    rw [collectAux_step_ok_false 0 server uri params acc reqs (rs 0) (nx 0)
      (hok 0) hnx]
    exact ⟨⟨reqs ++ [(uri, params)], Except.ok (acc ++ rs 0)⟩, rfl,
      acc ++ rs 0, rfl⟩
  | succ n ih =>
    intro server rs nx hok hnx uri params acc reqs
    cases ht : truthy (nx 0)
    · rw [collectAux_step_ok_false (n + 1) server uri params acc reqs (rs 0)
        (nx 0) (hok 0) ht]
      exact ⟨⟨reqs ++ [(uri, params)], Except.ok (acc ++ rs 0)⟩, rfl,
        acc ++ rs 0, rfl⟩
    · rw [collectAux_step_ok_true (n + 1) server uri params acc reqs (rs 0)
        (nx 0) (hok 0) ht]
      exact ih (fun i => server (i + 1)) (fun i => rs (i + 1))
        (fun i => nx (i + 1)) (fun i => hok (i + 1)) hnx
        ((nx 0).getD "") params (acc ++ rs 0) (reqs ++ [(uri, params)])

/-- If every response is a well-formed page with a truthy `next`, the
loop never returns, whatever the fuel. -/
theorem collectAux_diverges {α : Type} :
    ∀ (fuel : Nat) (server : Nat → PageResult α) (rs : Nat → List α)
      (nx : Nat → Option String),
      (∀ i, server i = PageResult.ok (rs i) (nx i)) →
      (∀ i, truthy (nx i) = true) →
      ∀ uri params acc reqs,
        collectAux fuel server uri params acc reqs = none := by
  intro fuel
  induction fuel with
  | zero => intro server rs nx _ _ uri params acc reqs; rfl
  | succ n ih =>
    intro server rs nx hok hnx uri params acc reqs
    rw [collectAux_step_ok_true n server uri params acc reqs (rs 0) (nx 0)
      (hok 0) (hnx 0)]
    exact ih (fun i => server (i + 1)) (fun i => rs (i + 1))
      (fun i => nx (i + 1)) (fun i => hok (i + 1)) (fun i => hnx (i + 1))
      ((nx 0).getD "") params (acc ++ rs 0) (reqs ++ [(uri, params)])

/-- C5: for a server of well-formed pages, (a) as soon as some page's
`next` is null/falsy the loop terminates and returns (fuel `k + 1`
suffices when page `k` is such a page); (b) if every page's `next` is
truthy the loop never returns at any fuel — there is no local
iteration cap. -/
theorem C5_termination_iff_exhaustion {α : Type}
    (server : Nat → PageResult α) (rs : Nat → List α)
    (nx : Nat → Option String)
    (hok : ∀ i, server i = PageResult.ok (rs i) (nx i)) :
    (∀ k, truthy (nx k) = false → ∀ uri params,
      ∃ o : CollectOutcome α,
        collect_results (k + 1) server uri params = some o ∧
        ∃ l, o.value = Except.ok l) ∧
    ((∀ i, truthy (nx i) = true) → ∀ fuel uri params,
      collect_results fuel server uri params = none) := by
  constructor
  · intro k hk uri params
    exact collectAux_stops k server rs nx hok hk uri params [] []
  · intro hall fuel uri params
    exact collectAux_diverges fuel server rs nx hok hall uri params [] []

/-- C5 witness: a server whose single page ends the sequence
terminates with one request's worth of fuel; a server that always
links onwards returns nothing even with fuel 5. -/
theorem C5_termination_iff_exhaustion_witness :
    (∃ o : CollectOutcome Nat,
      collect_results 1 (fun _ => PageResult.ok [1] none) "u" [] =
        some o ∧ ∃ l, o.value = Except.ok l) ∧
    collect_results 5 (fun _ => PageResult.ok ([1] : List Nat) (some "n"))
      "u" [] = none :=
  ⟨(C5_termination_iff_exhaustion (fun _ => PageResult.ok [1] none)
      (fun _ => [1]) (fun _ => none) (fun _ => rfl)).1 0 rfl "u" [],
   (C5_termination_iff_exhaustion
      (fun _ => PageResult.ok ([1] : List Nat) (some "n")) (fun _ => [1])
      (fun _ => some "n") (fun _ => rfl)).2 (fun _ => by decide) 5 "u" []⟩

/-! ## C8 — a failing GET aborts the whole collection -/

/-- If the pages before index `k` all link onwards and the `k`-th GET
comes back with a non-success status, the loop propagates a
`RequestError` carrying exactly that status and body, and its value
holds no results. -/
theorem collectAux_error {α : Type} :
    ∀ (k fuel : Nat) (server : Nat → PageResult α) (st : Nat)
      (body : String),
      (∀ i, i < k → ∃ rsl nxo, server i = PageResult.ok rsl nxo ∧
        truthy nxo = true) →
      server k = PageResult.httpError st body →
      k < fuel →
      ∀ uri params acc reqs,
        ∃ rq, collectAux fuel server uri params acc reqs =
          some ⟨rq, Except.error ⟨st, body⟩⟩ := by
  intro k
  induction k with
  | zero =>
    intro fuel server st body _ herr hfuel uri params acc reqs
    obtain ⟨f, rfl⟩ : ∃ f, fuel = f + 1 := ⟨fuel - 1, by omega⟩
    rw [collectAux_step_err f server uri params acc reqs st body herr]
    exact ⟨reqs ++ [(uri, params)], rfl⟩
  | succ n ih =>
    intro fuel server st body hprev herr hfuel uri params acc reqs
    obtain ⟨f, rfl⟩ : ∃ f, fuel = f + 1 := ⟨fuel - 1, by omega⟩
    obtain ⟨rsl, nxo, hs0, hnx⟩ := hprev 0 (Nat.succ_pos n)
    rw [collectAux_step_ok_true f server uri params acc reqs rsl nxo hs0 hnx]
    exact ih f (fun i => server (i + 1)) st body
      (fun i hi => hprev (i + 1) (Nat.succ_lt_succ hi)) herr
      (by omega) (nxo.getD "") params (acc ++ rsl)
      (reqs ++ [(uri, params)])

/-- C8: when the pages before the `k`-th all link onwards and the
`k`-th GET returns a non-success status, the whole `_collect_results`
call fails with a Request Error carrying that status and body, and no
result list — not even the pages already accumulated — is returned. -/
theorem C8_request_failure_atomic {α : Type} (server : Nat → PageResult α)
    (k fuel : Nat) (st : Nat) (body : String)
    (hprev : ∀ i, i < k → ∃ rsl nxo, server i = PageResult.ok rsl nxo ∧
      truthy nxo = true)
    (herr : server k = PageResult.httpError st body) (hfuel : k < fuel)
    (uri : String) (params : Params) :
    ∃ rq, collect_results fuel server uri params =
      some ⟨rq, Except.error ⟨st, body⟩⟩ :=
  collectAux_error k fuel server st body hprev herr hfuel uri params [] []

/-- C8 witness: `errServer`'s first page succeeds with results `[7]`
and its second GET fails with status 500; the call returns the
Request Error ⟨500, "boom"⟩ and no result list. -/
theorem C8_request_failure_atomic_witness :
    ∃ rq, collect_results 2 errServer "u" [] =
      some ⟨rq, Except.error ⟨500, "boom"⟩⟩ :=
  C8_request_failure_atomic errServer 1 2 500 "boom"
    (fun i hi => ⟨[7], some "n", by
      have : i = 0 := by omega
      subst this
      rfl, by decide⟩)
    rfl (by decide) "u" []

/-! ## C6 — one login POST per session, none with a pre-set token -/

/-- POST count distributes over trace concatenation. -/
theorem countPosts_append (a b : List HttpCall) :
    countPosts (a ++ b) = countPosts a + countPosts b := by
  induction a with
  | nil => simp [countPosts]
  | cons c rest ih =>
    cases c
    · simp [countPosts, ih]
      omega
    · simp [countPosts, ih]

/-- A pagination run makes GETs only: its trace holds no POST. -/
theorem countPosts_getTrace {α : Type} (o : CollectOutcome α) :
    countPosts (getTrace o) = 0 := by
  unfold getTrace
  induction o.requests with
  | nil => rfl
  | cons r rest ih => simp [countPosts, ih]

/-- Any number of accessor calls together make no POST. -/
theorem countPosts_accessor_calls {α : Type}
    (outcomes : List (CollectOutcome α)) :
    countPosts ((outcomes.map getTrace).flatten) = 0 := by
  induction outcomes with
  | nil => rfl
  | cons o rest ih =>
    simp only [List.map_cons, List.flatten_cons, countPosts_append, ih,
      countPosts_getTrace o]

/-- C6: a session entered without a truthy token issues exactly one
login POST across its whole lifetime, however many accessor calls
follow; a session with a pre-supplied (truthy) token never POSTs, and
`__enter__` returns it with the token unchanged. -/
theorem C6_token_lazy_caching {α : Type} (c : Client)
    (outcomes : List (CollectOutcome α)) :
    (truthy c.token = false → countPosts (sessionCalls c outcomes) = 1) ∧
    (truthy c.token = true →
      countPosts (sessionCalls c outcomes) = 0 ∧
      ∀ resp, enter resp c = (c, Except.ok ())) := by
  constructor
  · intro h
    simp [sessionCalls, countPosts_append, enterCalls, h, countPosts,
      countPosts_accessor_calls]
  · intro h
    refine ⟨?_, ?_⟩
    · simp [sessionCalls, countPosts_append, enterCalls, h, countPosts,
        countPosts_accessor_calls]
    · intro resp
      simp [enter, h]

/-- C6 witness: the username/password session `c0` followed by two
accessor runs makes exactly one POST; the token session `cTok` with the
same accessor runs makes none and `__enter__` leaves it unchanged. -/
theorem C6_token_lazy_caching_witness :
    countPosts (sessionCalls c0 [exOutcome, exOutcome]) = 1 ∧
    countPosts (sessionCalls cTok [exOutcome, exOutcome]) = 0 :=
  ⟨(C6_token_lazy_caching c0 [exOutcome, exOutcome]).1 rfl,
   ((C6_token_lazy_caching cTok [exOutcome, exOutcome]).2 (by decide)).1⟩

/-! ## C10 — host normalization is partial -/

/-- The slash-stripping loop on a reversed character list that holds a
non-`'/'` character: it succeeds, its head is not `'/'`, and it only
removed leading slashes. -/
theorem stripSlashesRev_some (l : List Char) (h : ∃ c ∈ l, c ≠ '/') :
    ∃ r, stripSlashesRev l = some r ∧ r ≠ [] ∧ r.head? ≠ some '/' ∧
      ∃ k, l = List.replicate k '/' ++ r := by
  induction l with
  | nil => simp at h
  | cons c cs ih =>
    by_cases hc : c = '/'
    · subst hc
      obtain ⟨r, hr, hne, hh, k, hk⟩ := ih (by
        obtain ⟨d, hd, hdne⟩ := h
        rcases List.mem_cons.mp hd with h1 | h1
        · exact absurd h1 hdne
        · exact ⟨d, h1, hdne⟩)
      refine ⟨r, ?_, hne, hh, k + 1, ?_⟩
      · rw [stripSlashesRev, if_pos rfl]
        exact hr
      · rw [List.replicate_succ, List.cons_append, hk]
    · refine ⟨c :: cs, ?_, by simp, by simp [hc], 0, by simp⟩
      rw [stripSlashesRev, if_neg hc]

/-- The slash-stripping loop on a reversed character list of slashes
only: it consumes everything and indexes the empty string. -/
theorem stripSlashesRev_none (l : List Char) (h : ∀ c ∈ l, c = '/') :
    stripSlashesRev l = none := by
  induction l with
  | nil => rfl
  | cons c cs ih =>
    rw [stripSlashesRev, if_pos (h c (List.mem_cons_self c cs))]
    exact ih fun d hd => h d (List.mem_cons_of_mem c hd)

/-- C10: given valid credentials, construction with a host holding at
least one non-`'/'` character succeeds, stores
`<stripped-host>:<port>`, and the stripped host never ends in `'/'`;
construction with an empty or all-`'/'` host fails with the
`IndexError` of `host[-1]`, not a Configuration Error. -/
theorem C10_host_normalization (host : String) (port : Nat)
    (token username password : Option String)
    (hcred : (truthy token || (truthy username && truthy password)) = true) :
    ((∃ c ∈ host.data, c ≠ '/') →
      ∃ s : String, normalizeHost host = some s ∧
        (∃ k, host.data = s.data ++ List.replicate k '/') ∧
        s.data.getLast? ≠ some '/' ∧
        init host port token username password =
          Except.ok ⟨s ++ ":" ++ toString port, token, username,
            password⟩) ∧
    ((∀ c ∈ host.data, c = '/') →
      init host port token username password =
        Except.error InitError.indexError) := by
  constructor
  · intro hne
    obtain ⟨r, hr, hrne, hrh, k, hk⟩ := stripSlashesRev_some
      host.data.reverse (by
        obtain ⟨c, hc, hcne⟩ := hne
        exact ⟨c, List.mem_reverse.mpr hc, hcne⟩)
    refine ⟨String.mk r.reverse, ?_, ⟨k, ?_⟩, ?_, ?_⟩
    · rw [normalizeHost, hr]
      rfl
    · have : host.data.reverse = List.replicate k '/' ++ r := hk
      calc host.data = host.data.reverse.reverse := by
            rw [List.reverse_reverse]
        _ = (List.replicate k '/' ++ r).reverse := by rw [this]
        _ = r.reverse ++ (List.replicate k '/').reverse := by
            rw [List.reverse_append]
        _ = (String.mk r.reverse).data ++ List.replicate k '/' := by
            rw [List.reverse_replicate]
    · show r.reverse.getLast? ≠ some '/'
      rw [List.getLast?_reverse]
      exact hrh
    · rw [init, if_pos hcred, normalizeHost, hr]
      rfl
  · intro hall
    rw [init, if_pos hcred, normalizeHost,
      stripSlashesRev_none host.data.reverse
        (fun c hc => hall c (List.mem_reverse.mp hc))]
    rfl

/-- C10 witness: `"h//"` is stripped to `"h"` and stored as `"h:1"`;
the all-slash host `"///"` raises the indexing error even though the
credentials are valid. -/
theorem C10_host_normalization_witness :
    (∃ s : String, normalizeHost "h//" = some s ∧
      (∃ k, "h//".data = s.data ++ List.replicate k '/') ∧
      s.data.getLast? ≠ some '/' ∧
      init "h//" 1 (some "t") none none =
        Except.ok ⟨s ++ ":" ++ toString 1, some "t", none, none⟩) ∧
    init "///" 1 (some "t") none none =
      Except.error InitError.indexError :=
  ⟨(C10_host_normalization "h//" 1 (some "t") none none (by decide)).1
      (by decide),
   (C10_host_normalization "///" 1 (some "t") none none (by decide)).2
      (by decide)⟩

end PgData
